import Mathlib

/-!
Shallow embedding of the repository-classification core of
github_analyzer.py (GitHub Portfolio Analyzer): the stack-signal
extractor (_analyze_file_content), the repository stats step
(get_repository_stats), the per-repository pipeline
(analyze_repository_tech_stack), the complexity/category classifier
(_estimate_complexity_and_category) and the statistics fold of
generate_portfolio_report.

Network fetches are modelled as inputs: each fetched value arrives as an
Option (none = the fetch failed or the file is absent).  Python dicts are
modelled as association lists, Python exceptions as Except Unit.
-/

namespace PortfolioAnalyzer

/-- JSON values, as produced by json.loads on a manifest file.  A
package.json content string that fails to parse is modelled as the
absence of such a value (json.JSONDecodeError). -/
inductive Json where
  | null : Json
  | bool (b : Bool) : Json
  | num (n : Int) : Json
  | str (s : String) : Json
  | arr (elems : List Json) : Json
  | obj (fields : List (String × Json)) : Json

/-- Python dict.get(key, dflt) on a parsed JSON value.  Calling .get on a
non-dict value raises AttributeError, modelled as the error case. -/
def dictGetD (j : Json) (key : String) (dflt : Json) : Except Unit Json :=
  match j with
  | Json.obj fields => Except.ok ((fields.lookup key).getD dflt)
  | _ => Except.error ()

/-- Python list(value.keys()).  Calling .keys() on a non-dict value raises
AttributeError, modelled as the error case. -/
def dictKeys (j : Json) : Except Unit (List String) :=
  match j with
  | Json.obj fields => Except.ok (fields.map Prod.fst)
  | _ => Except.error ()

/-- ASCII lowercasing of one character, as str.lower() acts on the ASCII
range (all labels and languages compared by the analyzer are ASCII). -/
def lowerChar (c : Char) : Char :=
  if 65 ≤ c.toNat ∧ c.toNat ≤ 90 then Char.ofNat (c.toNat + 32) else c

/-- Python str.lower() on the ASCII range, structurally recursive so that
it evaluates inside the kernel. -/
def pyLower (s : String) : String :=
  String.mk (s.data.map lowerChar)

/-- Whitespace as stripped by Python str.strip() (ASCII subset). -/
def isSpaceChar (c : Char) : Bool :=
  c = ' ' ∨ c = '\t' ∨ c = '\n' ∨ c = '\r'

/-- Python str.strip(): drop leading and trailing whitespace. -/
def pyStrip (s : String) : String :=
  String.mk (((s.data.dropWhile isSpaceChar).reverse.dropWhile isSpaceChar).reverse)

/-- If pat is a leading segment of l, return the remainder after it. -/
def matchSep : List Char → List Char → Option (List Char)
  | [], rest => some rest
  | _ :: _, [] => none
  | p :: ps, c :: cs => if c = p then matchSep ps cs else none

/-- Worker for pySplit: scan left to right, splitting at each
non-overlapping occurrence of sep.  The fuel argument (at least the
length of the scanned list plus one, for a nonempty sep) makes the
recursion structural. -/
def pySplitGo (sep : List Char) : Nat → List Char → List Char → List (List Char)
  | 0, rest, acc => [acc.reverse ++ rest]
  | fuel + 1, l, acc =>
    match l with
    | [] => [acc.reverse]
    | c :: cs =>
      match matchSep sep l with
      | some rest => acc.reverse :: pySplitGo sep fuel rest []
      | none => pySplitGo sep fuel cs (c :: acc)

/-- Python s.split(sep) for a nonempty separator sep. -/
def pySplit (s sep : String) : List String :=
  (pySplitGo sep.data (s.data.length + 1) s.data []).map String.mk

/-- Is pat a leading segment of the list? -/
def isLeading : List Char → List Char → Bool
  | [], _ => true
  | _ :: _, [] => false
  | p :: ps, c :: cs => c = p && isLeading ps cs

/-- Worker for the Python substring test pat in s. -/
def containsSubL (pat : List Char) : List Char → Bool
  | [] => isLeading pat []
  | c :: cs => isLeading pat (c :: cs) || containsSubL pat cs

/-- Python substring test pat in s. -/
def containsSub (s pat : String) : Bool :=
  containsSubL pat.data s.data

/-- The per-repository analysis record built by
analyze_repository_tech_stack.  The stats keys (commit_count,
contributors_count, branches_count, readme_exists, has_tests, has_ci) are
added by analysis.update(stats); the error-path default dict omits them,
which is modelled by the value their readers default them to (0 / false). -/
structure Analysis where
  name : String
  description : String
  primary_language : String
  size : Nat
  stars : Nat
  forks : Nat
  created_at : String
  updated_at : String
  topics : List String
  languages : List (String × Nat)
  frameworks : List String
  tools : List String
  complexity : String
  category : String
  commit_count : Nat
  contributors_count : Nat
  branches_count : Nat
  readme_exists : Bool
  has_tests : Bool
  has_ci : Bool
deriving DecidableEq

/-- The result dict of get_repository_stats. -/
structure Stats where
  commit_count : Nat
  contributors_count : Nat
  branches_count : Nat
  readme_exists : Bool
  has_tests : Bool
  has_ci : Bool
deriving DecidableEq

/-- One entry of the repository root-contents listing: its name and
whether item[ "type" ] equals "file". -/
structure FileItem where
  name : String
  type_is_file : Bool
deriving DecidableEq

/-- The subset of the GitHub repository metadata record read by
analyze_repository_tech_stack.  description and language are Option to
model missing keys / JSON null (Python falsy handling is reproduced at
the use sites). -/
structure Repo where
  name : String
  description : Option String
  language : Option String
  size : Nat
  stargazers_count : Nat
  forks_count : Nat
  created_at : String
  updated_at : String
  topics : List String
deriving DecidableEq

/-- The outcomes of all network fetches made while analyzing one
repository.  languages: get_repository_languages (none = fetch failed,
handled by returning the empty dict).  contents: the root listing used by
get_repository_stats (none = non-200 status).  package_json: none = file
absent; some none = file present but empty or unparseable (both
contribute nothing: the truthiness guard skips empty content, and
json.JSONDecodeError is passed over); some (some j) = parses to j.  The
other five files carry their raw text, none = absent. -/
structure Probe where
  languages : Option (List (String × Nat))
  contents : Option (List FileItem)
  package_json : Option (Option Json)
  requirements_txt : Option String
  go_mod : Option String
  cargo_toml : Option String
  docker_compose_yml : Option String
  dockerfile : Option String

/-- The package.json branch of _analyze_file_content.  The try block
catches only json.JSONDecodeError (the none case); dev_deps is computed
— and can raise AttributeError — but is never consulted afterwards,
exactly as in the source. -/
def analyze_package_json (analysis : Analysis) (parsed : Option Json) :
    Except Unit Analysis :=
  match parsed with
  | none => Except.ok analysis
  | some pkg_data => do
    let depsObj ← dictGetD pkg_data "dependencies" (Json.obj [])
    let deps ← dictKeys depsObj
    let devObj ← dictGetD pkg_data "devDependencies" (Json.obj [])
    let _dev_deps ← dictKeys devObj
    let frameworks :=
      (if ["react", "@types/react"].any (fun dep => deps.contains dep)
        then ["React"] else [])
      ++ (if ["vue", "nuxt"].any (fun dep => deps.contains dep)
        then ["Vue.js"] else [])
      ++ (if ["angular", "@angular/core"].any (fun dep => deps.contains dep)
        then ["Angular"] else [])
      ++ (if ["express", "koa", "fastify"].any (fun dep => deps.contains dep)
        then ["Node.js Backend"] else [])
      ++ (if ["next", "gatsby"].any (fun dep => deps.contains dep)
        then ["Static Site Generator"] else [])
    Except.ok { analysis with
                  frameworks := analysis.frameworks ++ frameworks,
                  tools := analysis.tools ++ ["npm/yarn"] }

/-- line.split on each version-pin operator, keeping the head, then
strip: the bare package name of one requirements.txt line. -/
def parse_requirement_line (line : String) : String :=
  let p1 := (pySplit line "==").headD ""
  let p2 := (pySplit p1 ">=").headD ""
  let p3 := (pySplit p2 "~=").headD ""
  pyStrip p3

/-- The framework label (if any) contributed by one bare package name in
requirements.txt, following the if/elif chain of the source. -/
def requirement_label (package : String) : List String :=
  if package = "django" ∨ package = "Django" then ["Django"]
  else if package = "flask" ∨ package = "Flask" then ["Flask"]
  else if package = "fastapi" ∨ package = "FastAPI" then ["FastAPI"]
  else if package = "streamlit" then ["Streamlit"]
  else if package = "pandas" ∨ package = "numpy" ∨ package = "scipy" then
    ["Data Science"]
  else if package = "tensorflow" ∨ package = "torch" ∨ package = "pytorch" then
    ["Machine Learning"]
  else []

/-- The requirements.txt branch of _analyze_file_content. -/
def analyze_requirements (analysis : Analysis) (content : String) : Analysis :=
  let lines := pySplit (pyStrip content) "\n"
  let frameworks :=
    (lines.map (fun line => requirement_label (parse_requirement_line line))).flatten
  { analysis with
      frameworks := analysis.frameworks ++ frameworks,
      tools := analysis.tools ++ ["pip"] }

/-- The go.mod branch of _analyze_file_content. -/
def analyze_go_mod (analysis : Analysis) (content : String) : Analysis :=
  let fw1 : List String :=
    if containsSub content "gin-gonic/gin" then ["Gin (Go)"] else []
  let fw2 : List String :=
    if containsSub content "gorilla/mux" then ["Gorilla Mux"] else []
  { analysis with
      frameworks := analysis.frameworks ++ fw1 ++ fw2,
      tools := analysis.tools ++ ["Go Modules"] }

/-- The Cargo.toml branch of _analyze_file_content. -/
def analyze_cargo_toml (analysis : Analysis) (content : String) : Analysis :=
  let fw1 : List String :=
    if containsSub content "actix-web" then ["Actix Web"] else []
  let fw2 : List String :=
    if containsSub content "rocket" then ["Rocket"] else []
  { analysis with
      frameworks := analysis.frameworks ++ fw1 ++ fw2,
      tools := analysis.tools ++ ["Cargo"] }

/-- The Dockerfile branch of _analyze_file_content: the content is only
tested for presence/truthiness by the caller. -/
def analyze_dockerfile (analysis : Analysis) : Analysis :=
  { analysis with tools := analysis.tools ++ ["Docker"] }

/-- The docker-compose.yml branch of _analyze_file_content. -/
def analyze_docker_compose (analysis : Analysis) : Analysis :=
  { analysis with tools := analysis.tools ++ ["Docker Compose"] }

/-- get_repository_stats: readme/tests/ci flags from the root contents
listing (skipped entirely on a non-200 status), and the commit-count
estimate max(1, current_repo_size // 10) computed afterwards. -/
def get_repository_stats (contents : Option (List FileItem))
    (current_repo_size : Nat) : Stats :=
  let base : Stats :=
    { commit_count := 0, contributors_count := 0, branches_count := 0,
      readme_exists := false, has_tests := false, has_ci := false }
  let st :=
    match contents with
    | none => base
    | some items =>
      let file_names :=
        (items.filter (fun (item : FileItem) => item.type_is_file)).map
          (fun (item : FileItem) => pyLower item.name)
      { base with
          readme_exists :=
            ["readme.md", "readme.rst", "readme.txt"].any
              (fun readme => file_names.contains readme),
          has_ci := file_names.contains "dockerfile",
          has_tests :=
            file_names.any (fun nm =>
              ["test", "spec", "tests", "__tests__"].any
                (fun indicator => containsSub nm indicator)) }
  { st with commit_count := max 1 (current_repo_size / 10) }

/-- The analysis dict as first initialized in
analyze_repository_tech_stack, reproducing the Python falsy defaulting
of description / language / topics. -/
def initial_analysis (repo : Repo) : Analysis :=
  { name := repo.name
    description := repo.description.getD ""
    primary_language :=
      match repo.language with
      | some s => if s = "" then "Unknown" else s
      | none => "Unknown"
    size := repo.size
    stars := repo.stargazers_count
    forks := repo.forks_count
    created_at := repo.created_at
    updated_at := repo.updated_at
    topics := repo.topics
    languages := []
    frameworks := []
    tools := []
    complexity := "low"
    category := "other"
    commit_count := 0
    contributors_count := 0
    branches_count := 0
    readme_exists := false
    has_tests := false
    has_ci := false }

/-- The safe-default analysis dict returned by the except-branch of
analyze_repository_tech_stack (its absent stats keys are modelled by the
defaults their readers supply). -/
def default_analysis (name : String) : Analysis :=
  { name := name
    description := ""
    primary_language := "Unknown"
    size := 0
    stars := 0
    forks := 0
    created_at := ""
    updated_at := ""
    topics := []
    languages := []
    frameworks := []
    tools := []
    complexity := "low"
    category := "other"
    commit_count := 0
    contributors_count := 0
    branches_count := 0
    readme_exists := false
    has_tests := false
    has_ci := false }

/-- One guarded iteration of the file loop for requirements.txt: skipped
when the file is absent or its content is falsy (empty). -/
def step_requirements (analysis : Analysis) (c : Option String) : Analysis :=
  match c with
  | some content =>
    if content = "" then analysis else analyze_requirements analysis content
  | none => analysis

/-- One guarded iteration of the file loop for go.mod. -/
def step_go_mod (analysis : Analysis) (c : Option String) : Analysis :=
  match c with
  | some content =>
    if content = "" then analysis else analyze_go_mod analysis content
  | none => analysis

/-- One guarded iteration of the file loop for Cargo.toml. -/
def step_cargo_toml (analysis : Analysis) (c : Option String) : Analysis :=
  match c with
  | some content =>
    if content = "" then analysis else analyze_cargo_toml analysis content
  | none => analysis

/-- One guarded iteration of the file loop for docker-compose.yml (the
content itself is only tested for truthiness). -/
def step_docker_compose (analysis : Analysis) (c : Option String) : Analysis :=
  match c with
  | some content =>
    if content = "" then analysis else analyze_docker_compose analysis
  | none => analysis

/-- One guarded iteration of the file loop for Dockerfile. -/
def step_dockerfile (analysis : Analysis) (c : Option String) : Analysis :=
  match c with
  | some content =>
    if content = "" then analysis else analyze_dockerfile analysis
  | none => analysis

/-- The five loop iterations that follow package.json, in source order;
all of them are total. -/
def extract_rest (analysis : Analysis) (probe : Probe) : Analysis :=
  step_dockerfile
    (step_docker_compose
      (step_cargo_toml
        (step_go_mod
          (step_requirements analysis probe.requirements_txt)
          probe.go_mod)
        probe.cargo_toml)
      probe.docker_compose_yml)
    probe.dockerfile

/-- The loop of analyze_repository_tech_stack over
tech_stack_files + config_files in source order, each file guarded by
the Python truthiness test if content: (absent or empty content is
skipped).  Only the package.json branch, which runs first, can raise. -/
def extract_signals (analysis : Analysis) (probe : Probe) :
    Except Unit Analysis := do
  let a1 ← match probe.package_json with
    | none => Except.ok analysis
    | some parsed => analyze_package_json analysis parsed
  Except.ok (extract_rest a1 probe)

/-- The complexity_score accumulation of
_estimate_complexity_and_category: language count, framework count
(length of the frameworks list), size bonus and star bonus. -/
def complexity_score (analysis : Analysis) : Nat :=
  let lang_count := analysis.languages.length
  let score1 := min (lang_count * 10) 30
  let framework_count := analysis.frameworks.length
  let score2 := min (framework_count * 15) 45
  let score3 :=
    if analysis.size > 10000 then 30
    else if analysis.size > 1000 then 15
    else 0
  let score4 :=
    if analysis.stars > 100 then 20
    else if analysis.stars > 10 then 10
    else 0
  score1 + score2 + score3 + score4

/-- The complexity bucketing if/elif chain of
_estimate_complexity_and_category. -/
def bucket_complexity (score : Nat) : String :=
  if score ≥ 60 then "high"
  else if score ≥ 30 then "medium"
  else "low"

/-- The category if/elif chain of _estimate_complexity_and_category:
frameworks are lowercased before matching, tools are not. -/
def categorize (analysis : Analysis) : String :=
  let primary_lang := pyLower analysis.primary_language
  let frameworks := analysis.frameworks.map pyLower
  if ["react", "vue.js", "angular", "static site generator"].any
      (fun f => frameworks.contains f) then "frontend"
  else if ["django", "flask", "fastapi", "node.js backend", "gin (go)",
      "actix web"].any (fun f => frameworks.contains f) then "backend"
  else if ["data science", "machine learning"].any
      (fun f => frameworks.contains f) then "data/ml"
  else if analysis.tools.contains "docker" then "devops"
  else if ["javascript", "typescript", "html", "css"].contains primary_lang then
    "frontend"
  else if ["python", "java", "go", "rust", "c++"].contains primary_lang then
    "backend"
  else "other"

/-- _estimate_complexity_and_category: writes the complexity and category
keys of the analysis dict and returns it. -/
def estimate_complexity_and_category (analysis : Analysis) : Analysis :=
  { analysis with
      complexity := bucket_complexity (complexity_score analysis),
      category := categorize analysis }

/-- The analysis record of analyze_repository_tech_stack just before the
manifest loop: the base record with the language stats and the
repository stats attached. -/
def base_analysis (repo : Repo) (probe : Probe) : Analysis :=
  let a0 := initial_analysis repo
  let a1 := { a0 with languages := probe.languages.getD [] }
  let st := get_repository_stats probe.contents repo.size
  { a1 with
      commit_count := st.commit_count,
      contributors_count := st.contributors_count,
      branches_count := st.branches_count,
      readme_exists := st.readme_exists,
      has_tests := st.has_tests,
      has_ci := st.has_ci }

/-- analyze_repository_tech_stack: build the base record with language
and repository stats, run the manifest loop, then classify.  Any
exception escaping the body (only the AttributeError cases of the
package.json branch here) is caught and replaced by the safe-default
analysis for that repository name. -/
def analyze_repository_tech_stack (repo : Repo) (probe : Probe) : Analysis :=
  match extract_signals (base_analysis repo probe) probe with
  | Except.ok a => estimate_complexity_and_category a
  | Except.error _ => default_analysis repo.name

/-- The corpus statistics accumulated by generate_portfolio_report over
the analyses (a collections.Counter is a total count function defaulting
to 0). -/
@[ext]
structure Aggregate where
  languages : String → Nat
  frameworks : String → Nat
  categories : String → Nat
  complexities : String → Nat
  total_stars : Nat
  total_forks : Nat

/-- One Counter increment: counter[key] += amount. -/
def counterAdd (c : String → Nat) (key : String) (amount : Nat) : String → Nat :=
  fun x => if x = key then c x + amount else c x

/-- The body of the statistics loop of generate_portfolio_report for one
analysis: byte-weighted language totals, per-occurrence framework
counts, one count for the category and the complexity, and the star and
fork totals. -/
def add_analysis (agg : Aggregate) (analysis : Analysis) : Aggregate :=
  { languages :=
      analysis.languages.foldl (fun c kv => counterAdd c kv.1 kv.2) agg.languages
    frameworks :=
      analysis.frameworks.foldl (fun c fw => counterAdd c fw 1) agg.frameworks
    categories := counterAdd agg.categories analysis.category 1
    complexities := counterAdd agg.complexities analysis.complexity 1
    total_stars := agg.total_stars + analysis.stars
    total_forks := agg.total_forks + analysis.forks }

/-- The empty statistics state of generate_portfolio_report before its
loop. -/
def empty_aggregate : Aggregate :=
  { languages := fun _ => 0
    frameworks := fun _ => 0
    categories := fun _ => 0
    complexities := fun _ => 0
    total_stars := 0
    total_forks := 0 }

/-- The statistics fold of generate_portfolio_report over the list of
analyses. -/
def portfolio_aggregate (analyses : List Analysis) : Aggregate :=
  analyses.foldl add_analysis empty_aggregate

/-- Modelled from the spec wording of claim C1: the complexity score
with the framework term taken over the set of DISTINCT framework labels
(and the language term over distinct language keys), to be compared with
complexity_score, whose framework term is the raw list length. -/
def claimed_complexity_score (analysis : Analysis) : Nat :=
  min (10 * (analysis.languages.map Prod.fst).dedup.length) 30
  + min (15 * analysis.frameworks.dedup.length) 45
  + (if analysis.size > 10000 then 30
     else if analysis.size > 1000 then 15
     else 0)
  + (if analysis.stars > 100 then 20
     else if analysis.stars > 10 then 10
     else 0)

/-- Claim C1, counterexample: the classifier's framework term counts
list occurrences, not distinct labels.  A frameworks list holding the
label Data Science twice (as produced by a requirements.txt listing both
pandas and numpy) scores 30 for the framework term, while the claimed
formula over distinct labels gives 15 — and the two scores even bucket
differently (medium versus low). -/
theorem claim_C1_score_counterexample :
    complexity_score
      { default_analysis "cex" with frameworks := ["Data Science", "Data Science"] } = 30
    ∧ claimed_complexity_score
      { default_analysis "cex" with frameworks := ["Data Science", "Data Science"] } = 15
    ∧ (estimate_complexity_and_category
      { default_analysis "cex" with frameworks := ["Data Science", "Data Science"] }).complexity
      = "medium"
    ∧ bucket_complexity 15 = "low"
    ∧ (analyze_repository_tech_stack
        { name := "cex", description := none, language := none, size := 0,
          stargazers_count := 0, forks_count := 0, created_at := "",
          updated_at := "", topics := [] }
        { languages := none, contents := none, package_json := none,
          requirements_txt := some "pandas==2.0\nnumpy>=1.0", go_mod := none,
          cargo_toml := none, docker_compose_yml := none,
          dockerfile := none }).frameworks = ["Data Science", "Data Science"] := by
  refine ⟨rfl, rfl, rfl, rfl, ?_⟩
  decide

/-- Claim C1 as amended: for every analysis whose language mapping has
distinct keys, the complexity score equals min(10 × distinct language
count, 30) + min(15 × LENGTH of the frameworks list, counting repeated
labels, 45) + the size bonus + the popularity bonus. -/
theorem claim_C1_score_formula (a : Analysis)
    (h : (a.languages.map Prod.fst).Nodup) :
    complexity_score a =
      min (10 * (a.languages.map Prod.fst).dedup.length) 30
      + min (15 * a.frameworks.length) 45
      + (if a.size > 10000 then 30
         else if a.size > 1000 then 15
         else 0)
      + (if a.stars > 100 then 20
         else if a.stars > 10 then 10
         else 0) := by
  have hdedup : (a.languages.map Prod.fst).dedup.length = a.languages.length := by
    rw [List.dedup_eq_self.mpr h, List.length_map]
  simp [complexity_score, hdedup, Nat.mul_comm]

/-- A concrete one-language, one-framework analysis record used by the
witness of claim C1. -/
def wC1 : Analysis :=
  { default_analysis "w" with
      languages := [("Python", 5)], frameworks := ["Flask"] }

/-- Witness for claim C1 amended, at a one-language one-framework
record. -/
theorem claim_C1_score_formula_witness :
    (wC1.languages.map Prod.fst).Nodup
    ∧ complexity_score wC1 =
      min (10 * (wC1.languages.map Prod.fst).dedup.length) 30
      + min (15 * wC1.frameworks.length) 45
      + (if wC1.size > 10000 then 30
         else if wC1.size > 1000 then 15
         else 0)
      + (if wC1.stars > 100 then 20
         else if wC1.stars > 10 then 10
         else 0) :=
  ⟨by decide, claim_C1_score_formula wC1 (by decide)⟩

/-- Claim C5: complexity bucketing follows the fixed thresholds — any
score of 60 or more is high, any score in [30, 60) is medium (so 59 and
exactly 30 are medium), and any score below 30 is low (so 29 is low). -/
theorem claim_C5_bucketing (score : Nat) :
    (60 ≤ score → bucket_complexity score = "high")
    ∧ (30 ≤ score → score < 60 → bucket_complexity score = "medium")
    ∧ (score < 30 → bucket_complexity score = "low") := by
  refine ⟨fun h => ?_, fun h1 h2 => ?_, fun h => ?_⟩
  · simp [bucket_complexity, h]
  · have h3 : ¬ score ≥ 60 := by omega
    simp [bucket_complexity, h1, h3]
  · have h3 : ¬ score ≥ 60 := by omega
    have h4 : ¬ score ≥ 30 := by omega
    simp [bucket_complexity, h3, h4]

/-- Witness for claim C5 at the boundary scores 60, 59, 30 and 29. -/
theorem claim_C5_bucketing_witness :
    bucket_complexity 60 = "high" ∧ bucket_complexity 59 = "medium"
    ∧ bucket_complexity 30 = "medium" ∧ bucket_complexity 29 = "low" :=
  ⟨(claim_C5_bucketing 60).1 (by decide),
   (claim_C5_bucketing 59).2.1 (by decide) (by decide),
   (claim_C5_bucketing 30).2.1 (by decide) (by decide),
   (claim_C5_bucketing 29).2.2 (by decide)⟩

/-- Claim C7: on any analysis populated with the safe defaults — empty
language mapping, zero size, zero stars, Unknown primary language, no
frameworks and no tools — the classifier returns complexity low and
category other (it is a total function, so no error can be raised). -/
theorem claim_C7_safe_defaults (a : Analysis)
    (hlang : a.languages = []) (hsize : a.size = 0) (hstars : a.stars = 0)
    (hprim : a.primary_language = "Unknown") (hfw : a.frameworks = [])
    (htools : a.tools = []) :
    (estimate_complexity_and_category a).complexity = "low"
    ∧ (estimate_complexity_and_category a).category = "other" := by
  constructor
  · simp only [estimate_complexity_and_category]
    simp only [complexity_score, hlang, hsize, hstars, hfw]
    decide
  · simp only [estimate_complexity_and_category]
    simp only [categorize, hprim, hfw, htools]
    decide

/-- Witness for claim C7: the safe-default analysis record itself. -/
theorem claim_C7_safe_defaults_witness :
    (default_analysis "w7").languages = []
    ∧ (default_analysis "w7").size = 0
    ∧ (default_analysis "w7").stars = 0
    ∧ (default_analysis "w7").primary_language = "Unknown"
    ∧ (default_analysis "w7").frameworks = []
    ∧ (default_analysis "w7").tools = []
    ∧ (estimate_complexity_and_category (default_analysis "w7")).complexity = "low"
    ∧ (estimate_complexity_and_category (default_analysis "w7")).category = "other" :=
  ⟨rfl, rfl, rfl, rfl, rfl, rfl,
   (claim_C7_safe_defaults (default_analysis "w7") rfl rfl rfl rfl rfl rfl).1,
   (claim_C7_safe_defaults (default_analysis "w7") rfl rfl rfl rfl rfl rfl).2⟩

/-- Claim C9: for every repository size s, the stats step estimates the
commit count as max(1, s / 10): it does not depend on the contents
listing at all, it always is at least 1 (in particular exactly 1 when
s < 10), and for s ≥ 10 it equals the integer division s / 10. -/
theorem claim_C9_commit_estimate (contents contents2 : Option (List FileItem))
    (s : Nat) :
    (get_repository_stats contents s).commit_count = max 1 (s / 10)
    ∧ (get_repository_stats contents s).commit_count
      = (get_repository_stats contents2 s).commit_count
    ∧ 1 ≤ (get_repository_stats contents s).commit_count
    ∧ (10 ≤ s → (get_repository_stats contents s).commit_count = s / 10)
    ∧ (s < 10 → (get_repository_stats contents s).commit_count = 1) := by
  refine ⟨rfl, rfl, Nat.le_max_left 1 (s / 10), fun h => ?_, fun h => ?_⟩
  · show max 1 (s / 10) = s / 10
    omega
  · show max 1 (s / 10) = 1
    omega

/-- Witness for claim C9 at sizes 3 (below 10) and 12345. -/
theorem claim_C9_commit_estimate_witness :
    (3 < 10 ∧ (get_repository_stats none 3).commit_count = 1)
    ∧ (10 ≤ 12345 ∧ (get_repository_stats none 12345).commit_count = 12345 / 10) :=
  ⟨⟨by decide, (claim_C9_commit_estimate none none 3).2.2.2.2 (by decide)⟩,
   ⟨by decide, (claim_C9_commit_estimate none none 12345).2.2.2.1 (by decide)⟩⟩

/-- Claim C10: the complexity-and-category step writes only the
complexity and category fields; every other field of the analysis —
name, description, primary language, size, stars, forks, timestamps,
topics, languages, frameworks, tools, and the stats fields — is
unchanged. -/
theorem claim_C10_classifier_frame (a : Analysis) :
    (estimate_complexity_and_category a).name = a.name
    ∧ (estimate_complexity_and_category a).description = a.description
    ∧ (estimate_complexity_and_category a).primary_language = a.primary_language
    ∧ (estimate_complexity_and_category a).size = a.size
    ∧ (estimate_complexity_and_category a).stars = a.stars
    ∧ (estimate_complexity_and_category a).forks = a.forks
    ∧ (estimate_complexity_and_category a).created_at = a.created_at
    ∧ (estimate_complexity_and_category a).updated_at = a.updated_at
    ∧ (estimate_complexity_and_category a).topics = a.topics
    ∧ (estimate_complexity_and_category a).languages = a.languages
    ∧ (estimate_complexity_and_category a).frameworks = a.frameworks
    ∧ (estimate_complexity_and_category a).tools = a.tools
    ∧ (estimate_complexity_and_category a).commit_count = a.commit_count
    ∧ (estimate_complexity_and_category a).contributors_count = a.contributors_count
    ∧ (estimate_complexity_and_category a).branches_count = a.branches_count
    ∧ (estimate_complexity_and_category a).readme_exists = a.readme_exists
    ∧ (estimate_complexity_and_category a).has_tests = a.has_tests
    ∧ (estimate_complexity_and_category a).has_ci = a.has_ci :=
  ⟨rfl, rfl, rfl, rfl, rfl, rfl, rfl, rfl, rfl, rfl, rfl, rfl, rfl, rfl,
   rfl, rfl, rfl, rfl⟩

/-- Claim C2 (code bug): a repository whose only signal is a Dockerfile
gets the tool label Docker, yet the classifier does NOT assign category
devops — it falls through to other — because the category rule tests the
tools list for the lowercase string docker while the extractor only ever
appends the capitalized Docker (the frameworks are lowercased before
matching, the tools are not), leaving the devops rule unreachable. -/
theorem claim_C2_dockerfile_not_devops :
    (analyze_repository_tech_stack
      { name := "cex2", description := none, language := none, size := 0,
        stargazers_count := 0, forks_count := 0, created_at := "",
        updated_at := "", topics := [] }
      { languages := none, contents := none, package_json := none,
        requirements_txt := none, go_mod := none, cargo_toml := none,
        docker_compose_yml := none,
        dockerfile := some "FROM python:3" }).tools = ["Docker"]
    ∧ (analyze_repository_tech_stack
      { name := "cex2", description := none, language := none, size := 0,
        stargazers_count := 0, forks_count := 0, created_at := "",
        updated_at := "", topics := [] }
      { languages := none, contents := none, package_json := none,
        requirements_txt := none, go_mod := none, cargo_toml := none,
        docker_compose_yml := none,
        dockerfile := some "FROM python:3" }).category = "other" := by
  decide

/-- Claim C3, counterexample: a package manifest whose only framework
marker is react listed under devDependencies contributes NO framework
label (its frameworks stay empty) — only the tool npm/yarn — contrary to
the claim that devDependencies keys contribute like dependencies keys. -/
theorem claim_C3_dev_deps_counterexample :
    analyze_package_json (default_analysis "cex3")
      (some (Json.obj
        [("devDependencies", Json.obj [("react", Json.str "^18.0.0")])]))
      = Except.ok { default_analysis "cex3" with tools := ["npm/yarn"] } := by
  rfl

/-- Claim C3 as amended: only the keys of the dependencies object are
consulted for framework markers.  A manifest whose only content is a
devDependencies object — whatever it holds — contributes no framework
label, only the tool npm/yarn; the same marker react under dependencies
does contribute the label React. -/
theorem claim_C3_only_dependencies_consulted :
    (∀ (a : Analysis) (dd : List (String × Json)),
      analyze_package_json a
        (some (Json.obj [("devDependencies", Json.obj dd)]))
        = Except.ok { a with tools := a.tools ++ ["npm/yarn"] })
    ∧ (∀ (a : Analysis) (v : Json),
      analyze_package_json a
        (some (Json.obj [("dependencies", Json.obj [("react", v)])]))
        = Except.ok { a with frameworks := a.frameworks ++ ["React"],
                             tools := a.tools ++ ["npm/yarn"] }) := by
  constructor
  · intro a dd
    have h : analyze_package_json a
        (some (Json.obj [("devDependencies", Json.obj dd)]))
        = Except.ok { a with frameworks := a.frameworks ++ [],
                             tools := a.tools ++ ["npm/yarn"] } := rfl
    rw [h]
    simp
  · intro a v
    rfl

/-- Claim C4, counterexample: with a package.json whose dependencies
value is a string instead of an object, the whole repository analysis is
replaced by the safe default — the Actix Web framework and Cargo tool
that the repository's Cargo.toml would have contributed (as the second
and third conjuncts show for the same probe without the bad manifest)
are NOT preserved, contrary to the claim that only the malformed
manifest's own contribution is skipped. -/
theorem claim_C4_malformed_manifest_counterexample :
    analyze_repository_tech_stack
      { name := "cex4", description := none, language := none, size := 0,
        stargazers_count := 0, forks_count := 0, created_at := "",
        updated_at := "", topics := [] }
      { languages := none, contents := none,
        package_json := some (some (Json.obj
          [("dependencies", Json.str "not-an-object")])),
        requirements_txt := none, go_mod := none,
        cargo_toml := some "actix-web = 4", docker_compose_yml := none,
        dockerfile := none } = default_analysis "cex4"
    ∧ (analyze_repository_tech_stack
      { name := "cex4", description := none, language := none, size := 0,
        stargazers_count := 0, forks_count := 0, created_at := "",
        updated_at := "", topics := [] }
      { languages := none, contents := none, package_json := none,
        requirements_txt := none, go_mod := none,
        cargo_toml := some "actix-web = 4", docker_compose_yml := none,
        dockerfile := none }).frameworks = ["Actix Web"]
    ∧ (analyze_repository_tech_stack
      { name := "cex4", description := none, language := none, size := 0,
        stargazers_count := 0, forks_count := 0, created_at := "",
        updated_at := "", topics := [] }
      { languages := none, contents := none, package_json := none,
        requirements_txt := none, go_mod := none,
        cargo_toml := some "actix-web = 4", docker_compose_yml := none,
        dockerfile := none }).tools = ["Cargo"] := by
  refine ⟨rfl, ?_, ?_⟩ <;> decide

/-- Claim C4 as amended: a package.json that fails to PARSE is recovered
locally — analyzing a repository whose package.json is present but
unparseable (or empty) gives exactly the same result as one with no
package.json at all, so every other manifest's contribution is kept; but
a package.json that parses to valid JSON of unexpected format (here: a
dependencies value that is not an object) raises out of the extractor,
and the repository-level handler replaces the ENTIRE analysis with the
safe default — no error escapes the per-repository step, but the
repository's other signals are discarded rather than preserved. -/
theorem claim_C4_error_containment :
    (∀ (repo : Repo) (p : Probe),
      analyze_repository_tech_stack repo { p with package_json := some none }
        = analyze_repository_tech_stack repo { p with package_json := none })
    ∧ (∀ (repo : Repo) (p : Probe) (s : String),
      analyze_repository_tech_stack repo
        { p with
            package_json := some (some (Json.obj [("dependencies", Json.str s)])) }
        = default_analysis repo.name) :=
  ⟨fun _ _ => rfl, fun _ _ _ => rfl⟩

/-- Membership in the frameworks list survives the requirements.txt loop
iteration, which only appends labels. -/
lemma mem_step_requirements (x : String) (a : Analysis) (c : Option String)
    (h : x ∈ a.frameworks) : x ∈ (step_requirements a c).frameworks := by
  cases c with
  | none => exact h
  | some s =>
    simp only [step_requirements]
    split
    · exact h
    · exact List.mem_append_left _ h

/-- Membership in the frameworks list survives the go.mod loop
iteration. -/
lemma mem_step_go_mod (x : String) (a : Analysis) (c : Option String)
    (h : x ∈ a.frameworks) : x ∈ (step_go_mod a c).frameworks := by
  cases c with
  | none => exact h
  | some s =>
    simp only [step_go_mod]
    split
    · exact h
    · exact List.mem_append_left _ (List.mem_append_left _ h)

/-- Membership in the frameworks list survives the Cargo.toml loop
iteration. -/
lemma mem_step_cargo_toml (x : String) (a : Analysis) (c : Option String)
    (h : x ∈ a.frameworks) : x ∈ (step_cargo_toml a c).frameworks := by
  cases c with
  | none => exact h
  | some s =>
    simp only [step_cargo_toml]
    split
    · exact h
    · exact List.mem_append_left _ (List.mem_append_left _ h)

/-- The docker-compose.yml loop iteration leaves frameworks unchanged. -/
lemma mem_step_docker_compose (x : String) (a : Analysis) (c : Option String)
    (h : x ∈ a.frameworks) : x ∈ (step_docker_compose a c).frameworks := by
  cases c with
  | none => exact h
  | some s =>
    simp only [step_docker_compose]
    split
    · exact h
    · exact h

/-- The Dockerfile loop iteration leaves frameworks unchanged. -/
lemma mem_step_dockerfile (x : String) (a : Analysis) (c : Option String)
    (h : x ∈ a.frameworks) : x ∈ (step_dockerfile a c).frameworks := by
  cases c with
  | none => exact h
  | some s =>
    simp only [step_dockerfile]
    split
    · exact h
    · exact h

/-- Membership in the frameworks list survives the rest of the manifest
loop after package.json. -/
lemma mem_extract_rest (x : String) (a : Analysis) (p : Probe)
    (h : x ∈ a.frameworks) : x ∈ (extract_rest a p).frameworks :=
  mem_step_dockerfile _ _ _
    (mem_step_docker_compose _ _ _
      (mem_step_cargo_toml _ _ _
        (mem_step_go_mod _ _ _
          (mem_step_requirements _ _ _ h))))

/-- Any analysis whose frameworks list holds the label React is
categorized frontend: the frontend framework rule is the first rule of
the category chain, so it wins over every later rule. -/
lemma categorize_of_react (a : Analysis) (h : "React" ∈ a.frameworks) :
    categorize a = "frontend" := by
  have hx : "react" ∈ a.frameworks.map pyLower :=
    List.mem_map.mpr ⟨"React", h, rfl⟩
  have hcontains : ((a.frameworks.map pyLower).contains "react") = true := by
    simp only [List.contains_eq_any_beq, List.any_eq_true]
    exact ⟨"react", hx, rfl⟩
  have hcond : (["react", "vue.js", "angular", "static site generator"].any
      (fun f => (a.frameworks.map pyLower).contains f)) = true := by
    simp only [List.any_eq_true]
    exact ⟨"react", by simp, hcontains⟩
  simp only [categorize]
  rw [if_pos hcond]

/-- Claim C6: whatever else a repository holds, if its package manifest
declares the dependency react (so the label React is detected) and its
primary language is Python, the classifier assigns category frontend —
the frontend framework rule is evaluated before, and overrides, the
primary-language rules. -/
theorem claim_C6_react_overrides_language (repo : Repo) (p : Probe) (v : Json)
    (_hlang : repo.language = some "Python") :
    (analyze_repository_tech_stack repo
      { p with
          package_json := some (some (Json.obj
            [("dependencies", Json.obj [("react", v)])])) }).category
      = "frontend" := by
  have h1 : analyze_repository_tech_stack repo
      { p with
          package_json := some (some (Json.obj
            [("dependencies", Json.obj [("react", v)])])) }
      = estimate_complexity_and_category
          (extract_rest
            { base_analysis repo
                { p with
                    package_json := some (some (Json.obj
                      [("dependencies", Json.obj [("react", v)])])) } with
                frameworks :=
                  (base_analysis repo
                    { p with
                        package_json := some (some (Json.obj
                          [("dependencies", Json.obj [("react", v)])])) }).frameworks
                  ++ ["React"],
                tools :=
                  (base_analysis repo
                    { p with
                        package_json := some (some (Json.obj
                          [("dependencies", Json.obj [("react", v)])])) }).tools
                  ++ ["npm/yarn"] }
            { p with
                package_json := some (some (Json.obj
                  [("dependencies", Json.obj [("react", v)])])) }) := rfl
  rw [h1]
  exact categorize_of_react _
    (mem_extract_rest _ _ _ (List.mem_append_right _ (by simp)))

/-- Witness for claim C6: a Python-language repository whose only probed
file is a package.json declaring react. -/
theorem claim_C6_react_overrides_language_witness :
    ({ name := "w6", description := none, language := some "Python", size := 0,
       stargazers_count := 0, forks_count := 0, created_at := "",
       updated_at := "", topics := [] } : Repo).language = some "Python"
    ∧ (analyze_repository_tech_stack
      { name := "w6", description := none, language := some "Python", size := 0,
        stargazers_count := 0, forks_count := 0, created_at := "",
        updated_at := "", topics := [] }
      { languages := none, contents := none,
        package_json := some (some (Json.obj
          [("dependencies", Json.obj [("react", Json.str "^18.0.0")])])),
        requirements_txt := none, go_mod := none, cargo_toml := none,
        docker_compose_yml := none, dockerfile := none }).category
      = "frontend" :=
  ⟨rfl,
   claim_C6_react_overrides_language
     { name := "w6", description := none, language := some "Python", size := 0,
       stargazers_count := 0, forks_count := 0, created_at := "",
       updated_at := "", topics := [] }
     { languages := none, contents := none, package_json := none,
       requirements_txt := none, go_mod := none, cargo_toml := none,
       docker_compose_yml := none, dockerfile := none }
     (Json.str "^18.0.0") rfl⟩

/-- Pointwise value of a Counter after folding the language byte pairs
of one analysis into it. -/
lemma counter_foldl_pairs (entries : List (String × Nat)) (c : String → Nat)
    (x : String) :
    (entries.foldl (fun acc kv => counterAdd acc kv.1 kv.2) c) x
      = c x + (entries.map (fun kv => if x = kv.1 then kv.2 else 0)).sum := by
  induction entries generalizing c with
  | nil => simp
  | cons kv rest ih =>
    rw [List.foldl_cons, ih, List.map_cons, List.sum_cons]
    by_cases h : x = kv.1 <;> simp [counterAdd, h]
    omega

/-- Pointwise value of a Counter after folding the framework labels of
one analysis into it. -/
lemma counter_foldl_labels (fs : List String) (c : String → Nat) (x : String) :
    (fs.foldl (fun acc fw => counterAdd acc fw 1) c) x
      = c x + (fs.map (fun fw => if x = fw then 1 else 0)).sum := by
  induction fs generalizing c with
  | nil => simp
  | cons fw rest ih =>
    rw [List.foldl_cons, ih, List.map_cons, List.sum_cons]
    by_cases h : x = fw <;> simp [counterAdd, h]
    omega

/-- The language Counter of the fold is a pointwise sum of per-analysis
contributions. -/
lemma portfolio_fold_languages (l : List Analysis) (agg : Aggregate) (x : String) :
    (l.foldl add_analysis agg).languages x
      = agg.languages x
        + (l.map (fun a =>
            (a.languages.map (fun kv => if x = kv.1 then kv.2 else 0)).sum)).sum := by
  induction l generalizing agg with
  | nil => simp
  | cons a rest ih =>
    rw [List.foldl_cons, ih, List.map_cons, List.sum_cons]
    simp only [add_analysis]
    rw [counter_foldl_pairs]
    omega

/-- The framework Counter of the fold is a pointwise sum of per-analysis
contributions (one per occurrence in the frameworks list). -/
lemma portfolio_fold_frameworks (l : List Analysis) (agg : Aggregate) (x : String) :
    (l.foldl add_analysis agg).frameworks x
      = agg.frameworks x
        + (l.map (fun a =>
            (a.frameworks.map (fun fw => if x = fw then 1 else 0)).sum)).sum := by
  induction l generalizing agg with
  | nil => simp
  | cons a rest ih =>
    rw [List.foldl_cons, ih, List.map_cons, List.sum_cons]
    simp only [add_analysis]
    rw [counter_foldl_labels]
    omega

/-- The category Counter of the fold is a pointwise sum of one count per
analysis. -/
lemma portfolio_fold_categories (l : List Analysis) (agg : Aggregate) (x : String) :
    (l.foldl add_analysis agg).categories x
      = agg.categories x + (l.map (fun a => if x = a.category then 1 else 0)).sum := by
  induction l generalizing agg with
  | nil => simp
  | cons a rest ih =>
    rw [List.foldl_cons, ih, List.map_cons, List.sum_cons]
    simp only [add_analysis, counterAdd]
    by_cases h : x = a.category <;> simp [h]
    omega

/-- The complexity Counter of the fold is a pointwise sum of one count
per analysis. -/
lemma portfolio_fold_complexities (l : List Analysis) (agg : Aggregate) (x : String) :
    (l.foldl add_analysis agg).complexities x
      = agg.complexities x + (l.map (fun a => if x = a.complexity then 1 else 0)).sum := by
  induction l generalizing agg with
  | nil => simp
  | cons a rest ih =>
    rw [List.foldl_cons, ih, List.map_cons, List.sum_cons]
    simp only [add_analysis, counterAdd]
    by_cases h : x = a.complexity <;> simp [h]
    omega

/-- The star total of the fold is its starting value plus the sum of the
per-analysis star counts. -/
lemma portfolio_fold_stars (l : List Analysis) (agg : Aggregate) :
    (l.foldl add_analysis agg).total_stars
      = agg.total_stars + (l.map Analysis.stars).sum := by
  induction l generalizing agg with
  | nil => simp
  | cons a rest ih =>
    rw [List.foldl_cons, ih, List.map_cons, List.sum_cons]
    simp only [add_analysis]
    omega

/-- The fork total of the fold is its starting value plus the sum of the
per-analysis fork counts. -/
lemma portfolio_fold_forks (l : List Analysis) (agg : Aggregate) :
    (l.foldl add_analysis agg).total_forks
      = agg.total_forks + (l.map Analysis.forks).sum := by
  induction l generalizing agg with
  | nil => simp
  | cons a rest ih =>
    rw [List.foldl_cons, ih, List.map_cons, List.sum_cons]
    simp only [add_analysis]
    omega

/-- Claim C8: the portfolio aggregate — language byte totals, framework
counts, category counts, complexity counts, total stars and total
forks — is invariant under any permutation of the list of analyses. -/
theorem claim_C8_aggregation_order_independent (l1 l2 : List Analysis)
    (h : l1.Perm l2) : portfolio_aggregate l1 = portfolio_aggregate l2 := by
  have hsum : ∀ (f : Analysis → Nat), (l1.map f).sum = (l2.map f).sum :=
    fun f => (h.map f).sum_eq
  unfold portfolio_aggregate
  apply Aggregate.ext
  · funext x
    rw [portfolio_fold_languages, portfolio_fold_languages, hsum]
  · funext x
    rw [portfolio_fold_frameworks, portfolio_fold_frameworks, hsum]
  · funext x
    rw [portfolio_fold_categories, portfolio_fold_categories, hsum]
  · funext x
    rw [portfolio_fold_complexities, portfolio_fold_complexities, hsum]
  · rw [portfolio_fold_stars, portfolio_fold_stars, hsum]
  · rw [portfolio_fold_forks, portfolio_fold_forks, hsum]

/-- Witness for claim C8: aggregating the three distinct analyses
[A, B, C] equals aggregating [C, A, B]. -/
theorem claim_C8_aggregation_order_independent_witness :
    (List.Perm
      [default_analysis "A", default_analysis "B", default_analysis "C"]
      [default_analysis "C", default_analysis "A", default_analysis "B"])
    ∧ portfolio_aggregate
        [default_analysis "A", default_analysis "B", default_analysis "C"]
      = portfolio_aggregate
        [default_analysis "C", default_analysis "A", default_analysis "B"] :=
  have hperm : List.Perm
      [default_analysis "A", default_analysis "B", default_analysis "C"]
      [default_analysis "C", default_analysis "A", default_analysis "B"] :=
    (List.perm_append_comm :
      List.Perm
        ([default_analysis "A", default_analysis "B"] ++ [default_analysis "C"])
        ([default_analysis "C"] ++ [default_analysis "A", default_analysis "B"]))
  ⟨hperm, claim_C8_aggregation_order_independent _ _ hperm⟩

end PortfolioAnalyzer
